import Mathlib

/-
Shallow embedding of src/chapter4/imagescale-q-m.py: a batch image scaler
built from a joinable job queue, a pool of worker processes, a result queue
and a coordinator (`scale`).  External collaborators — the Image library,
the directory listing (os.listdir), os.path.join / os.path.basename, the
reporter — are modelled as explicit parameters or pure string functions.
Scheduling nondeterminism (which results have reached the result queue when
a canceled run drains it) is an explicit `delivered` mask; when `join()`
returns normally every result is already enqueued (each worker does
`results.put` before `task_done`), so the mask is all-true in that case.
-/

namespace ImageScale

/-- An image as seen through the external Image library: the scaling logic
reads only its dimensions (`Image.width`, `Image.height`). -/
structure Image where
  width : Nat
  height : Nat
  deriving DecidableEq

/-- The namedtuple `Result = collections.namedtuple("Result", "copied scaled name")`;
`copied`/`scaled` are the integers 0 or 1 in every Result the program builds. -/
structure Result where
  copied : Nat
  scaled : Nat
  name : String
  deriving DecidableEq

/-- The namedtuple `Summary = collections.namedtuple("Summary", "todo copied scaled canceled")`. -/
structure Summary where
  todo : Nat
  copied : Nat
  scaled : Nat
  canceled : Bool
  deriving DecidableEq

/-- The external Image library capabilities the program uses:
`Image.from_file` and `Image.save` may raise `Image.Error` (modelled as
`Except.error` carrying the message `str(err)`); `Image.scale` and
`Image.subsample` return a new image whose pixel content is not modelled
further. -/
structure ImageLib where
  from_file : String → Except String Image
  save : Image → String → Except String Unit
  scale : Image → ℚ → Image
  subsample : Image → ℤ → Image

/-- Which branch of `scale_one` ran, with its numeric parameter: COPY,
SMOOTH_SCALE(factor) or SUBSAMPLE(stride). -/
inductive Strategy where
  | copy : Strategy
  | smoothScale : ℚ → Strategy
  | subsample : ℤ → Strategy
  deriving DecidableEq

/-- Trace of one `scale_one` call: the branch taken, the image passed to
`Image.save`, and the `Result` returned. -/
structure ScaleTrace where
  strategy : Strategy
  saved : Image
  result : Result
  deriving DecidableEq

/-- Model of `os.path.basename` for slash-separated absolute paths. -/
def basename (p : String) : String :=
  (p.splitOn "/").getLastD ""

/-- Model of `os.path.join dir name` where `name` is a relative entry name,
as returned by `os.listdir`. -/
def pathJoin (dir name : String) : String :=
  dir ++ "/" ++ name

/-- Embedding of `scale_one(size, smooth, sourceImage, targetImage)`
(lines 110-124).  Python 3 `/` is true division, modelled exactly over ℚ;
`int(math.ceil(...))` is `Int.ceil`.  An `Image.Error` raised by
`from_file` or `save` propagates as `Except.error`.  The returned trace
records the branch taken and the image saved alongside the code's Result. -/
def scale_one (lib : ImageLib) (size : Nat) (smooth : Bool)
    (sourceImage targetImage : String) : Except String ScaleTrace :=
  match lib.from_file sourceImage with
  | .error err => .error err
  | .ok oldImage =>
    if oldImage.width ≤ size ∧ oldImage.height ≤ size then
      match lib.save oldImage targetImage with
      | .error err => .error err
      | .ok _ => .ok ⟨.copy, oldImage, ⟨1, 0, targetImage⟩⟩
    else if smooth then
      let scale : ℚ := min ((size : ℚ) / oldImage.width) ((size : ℚ) / oldImage.height)
      let newImage := lib.scale oldImage scale
      match lib.save newImage targetImage with
      | .error err => .error err
      | .ok _ => .ok ⟨.smoothScale scale, newImage, ⟨0, 1, targetImage⟩⟩
    else
      let stride : ℤ := Int.ceil (max ((oldImage.width : ℚ) / size)
                                      ((oldImage.height : ℚ) / size))
      let newImage := lib.subsample oldImage stride
      match lib.save newImage targetImage with
      | .error err => .error err
      | .ok _ => .ok ⟨.subsample stride, newImage, ⟨0, 1, targetImage⟩⟩

/-- Observable effects of one iteration of the `worker` loop (lines 87-99)
on one retrieved job: the Result put on the result queue (if any), the
`Qtrac.report` calls as (message, isError) pairs, and how many times
`jobs.task_done()` ran. -/
structure WorkerStep where
  result : Option Result
  reports : List (String × Bool)
  task_done : Nat
  deriving DecidableEq

/-- One iteration of the `worker` loop body on a retrieved job
(sourceImage, targetImage).  The inner `try` either produces a Result
(put on the result queue, with a progress line reported) or catches an
`Image.Error` (error line reported, no Result); the `finally` runs
`jobs.task_done()` exactly once on both paths, which is why each branch
records `task_done := 1`. -/
def worker_one (lib : ImageLib) (size : Nat) (smooth : Bool)
    (job : String × String) : WorkerStep :=
  match scale_one lib size smooth job.1 job.2 with
  | .ok tr =>
      { result := some tr.result
        reports := [((if tr.result.copied ≠ 0 then "copied" else "scaled")
                      ++ " " ++ basename tr.result.name, false)]
        task_done := 1 }
  | .error err =>
      { result := none
        reports := [(err, true)]
        task_done := 1 }

/-- The `worker` loop run over the sequence of jobs that this worker
retrieves from the queue (the loop itself never terminates; this is its
per-job effect trace). -/
def workerRun (lib : ImageLib) (size : Nat) (smooth : Bool)
    (jobs : List (String × String)) : List WorkerStep :=
  jobs.map (worker_one lib size smooth)

/-- Embedding of `add_jobs(source, target, jobs)` (lines 102-107), with the
directory listing `os.listdir(source)` passed in as `listing`.  The loop is
`for todo, name in enumerate(listing, start=1)`, so after a nonempty loop
`todo` holds the count of entries (the last 1-based index) and every entry
was enqueued as `(os.path.join(source, name), os.path.join(target, name))`.
On an empty listing the loop body never runs, `todo` is never bound, and
`return todo` raises UnboundLocalError — modelled as `none`. -/
def add_jobs (source target : String) (listing : List String) :
    Option (Nat × List (String × String)) :=
  if listing.isEmpty then
    none
  else
    some (listing.length,
      listing.map fun name => (pathJoin source name, pathJoin target name))

/-- The results sitting in the result queue when the coordinator drains it:
one per successfully processed job whose `results.put` has already happened,
selected by the `delivered` mask (shorter masks deliver nothing beyond their
length). -/
def availableResults (lib : ImageLib) (size : Nat) (smooth : Bool)
    (jobs : List (String × String)) (delivered : List Bool) : List Result :=
  ((workerRun lib size smooth jobs).zip delivered).filterMap
    fun sd => if sd.2 then sd.1.result else none

/-- Embedding of `scale(size, smooth, source, target, concurrency)`
(lines 59-75).  Environment parameters: `lib` the Image library, `listing`
the entries of `os.listdir(source)`, `interrupted` whether KeyboardInterrupt
arrives during `jobs.join()`, and `delivered` which successful jobs' results
are in the result queue at drain time on an interrupted run (when `join()`
returns normally every job has been processed and every `results.put`
happened before the matching `task_done`, so all results are drained).
`concurrency` only sets the worker-pool size in `create_processes`; the
model assumes the join completes (at least one worker, or an interrupt).
If `add_jobs` raises (empty listing), the exception propagates out of
`scale` before the `try`/`join`, so no Summary is produced: `none`. -/
def scale (lib : ImageLib) (listing : List String) (interrupted : Bool)
    (delivered : List Bool) (size : Nat) (smooth : Bool)
    (source target : String) (concurrency : Nat) : Option Summary :=
  match add_jobs source target listing with
  | none => none
  | some td =>
    let todo := td.1
    let jobs := td.2
    let canceled := interrupted
    let drained := availableResults lib size smooth jobs
      (if interrupted then delivered else List.replicate jobs.length true)
    let copied := (drained.map fun r => r.copied).sum
    let scaled := (drained.map fun r => r.scaled).sum
    some ⟨todo, copied, scaled, canceled⟩

/-- The parsed command-line arguments handed to `handle_commandline`
(line 49); `concurrency` defaults to the CPU count but may be any integer
supplied with `-c`. -/
structure Args where
  concurrency : Int
  size : Int
  smooth : Bool
  source : String
  target : String
  deriving DecidableEq

/-- Embedding of the validation and return of `handle_commandline`
(lines 50-56).  `abspath` models `os.path.abspath`.  The only check is
`source == target` after abspath; on violation the program aborts before
any batch runs (the code's `args.error(...)` — itself an AttributeError,
but either way the configuration is rejected), modelled as `Except.error`.
No check on `concurrency` (or `size`) exists.  The `os.makedirs` side
effect is not modelled. -/
def handle_commandline (abspath : String → String) (args : Args) :
    Except String (Int × Bool × String × String × Int) :=
  let source := abspath args.source
  let target := abspath args.target
  if source = target then
    .error "source and target must be different"
  else
    .ok (args.size, args.smooth, source, target, args.concurrency)

/-- The message built by `summarize(summary, concurrency)` (lines 127-142):
`difference = summary.todo - (summary.copied + summary.scaled)` is a Python
int (so an ℤ here) and the `skipped` clause appears whenever it is nonzero. -/
def summarize (summary : Summary) (concurrency : Nat) : String :=
  let message := "copied " ++ toString summary.copied ++ " scaled "
                  ++ toString summary.scaled ++ " "
  let difference : ℤ := (summary.todo : ℤ) - ((summary.copied : ℤ) + (summary.scaled : ℤ))
  let message := if difference ≠ 0 then
      message ++ "skipped " ++ toString difference ++ " "
    else message
  let message := message ++ "using " ++ toString concurrency ++ " processes"
  if summary.canceled then message ++ " [canceled]" else message

/-- A concrete Image library for concrete runs: every path loads as a w×h
image, every save succeeds, and the transform operations keep the image
(their pixel behaviour is irrelevant to every claim). -/
def constLib (w h : Nat) : ImageLib where
  from_file := fun _ => .ok ⟨w, h⟩
  save := fun _ _ => .ok ()
  scale := fun img _ => img
  subsample := fun img _ => img

/-- A concrete Image library whose every load raises `Image.Error`. -/
def errLib : ImageLib where
  from_file := fun _ => .error "Image.Error: cannot read image"
  save := fun _ _ => .ok ()
  scale := fun img _ => img
  subsample := fun img _ => img

/-- Every Result that `scale_one` returns has `copied + scaled = 1`: each
branch builds either `Result(1, 0, name)` or `Result(0, 1, name)`. -/
theorem scale_one_ok_sum (lib : ImageLib) (size : Nat) (smooth : Bool)
    (src tgt : String) (tr : ScaleTrace)
    (h : scale_one lib size smooth src tgt = .ok tr) :
    tr.result.copied + tr.result.scaled = 1 := by
  unfold scale_one at h
  split at h
  · cases h
  · dsimp only at h
    split at h
    · split at h
      · cases h
      · cases h; rfl
    · split at h
      · split at h
        · cases h
        · cases h; rfl
      · split at h
        · cases h
        · cases h; rfl

/-- One worker iteration acknowledges exactly once, on both paths. -/
theorem worker_one_task_done (lib : ImageLib) (size : Nat) (smooth : Bool)
    (job : String × String) :
    (worker_one lib size smooth job).task_done = 1 := by
  unfold worker_one
  cases scale_one lib size smooth job.1 job.2 <;> rfl

/-- A Result put on the result queue by a worker comes from a successful
`scale_one`, hence has `copied + scaled = 1`. -/
theorem worker_one_result_sum (lib : ImageLib) (size : Nat) (smooth : Bool)
    (job : String × String) (r : Result)
    (h : (worker_one lib size smooth job).result = some r) :
    r.copied + r.scaled = 1 := by
  unfold worker_one at h
  cases hs : scale_one lib size smooth job.1 job.2 with
  | error e => rw [hs] at h; cases h
  | ok tr =>
    rw [hs] at h
    simp only [Option.some.injEq] at h
    subst h
    exact scale_one_ok_sum lib size smooth job.1 job.2 tr hs

/-- Every result available at drain time satisfies `copied + scaled = 1`. -/
theorem availableResults_mem_sum (lib : ImageLib) (size : Nat) (smooth : Bool)
    (jobs : List (String × String)) (delivered : List Bool) (r : Result)
    (h : r ∈ availableResults lib size smooth jobs delivered) :
    r.copied + r.scaled = 1 := by
  unfold availableResults at h
  obtain ⟨sd, hmem, hval⟩ := List.mem_filterMap.1 h
  have hres : sd.1.result = some r := by
    rcases sd with ⟨st, d⟩
    cases d
    · simp at hval
    · simpa using hval
  have hstep : sd.1 ∈ workerRun lib size smooth jobs :=
    (List.of_mem_zip hmem).1
  unfold workerRun at hstep
  obtain ⟨job, _, hjob⟩ := List.mem_map.1 hstep
  rw [← hjob] at hres
  exact worker_one_result_sum lib size smooth job r hres

/-- There are never more results available than jobs. -/
theorem availableResults_length_le (lib : ImageLib) (size : Nat) (smooth : Bool)
    (jobs : List (String × String)) (delivered : List Bool) :
    (availableResults lib size smooth jobs delivered).length ≤ jobs.length := by
  unfold availableResults
  calc (((workerRun lib size smooth jobs).zip delivered).filterMap
          fun sd => if sd.2 then sd.1.result else none).length
      ≤ ((workerRun lib size smooth jobs).zip delivered).length :=
        List.length_filterMap_le _ _
    _ ≤ (workerRun lib size smooth jobs).length :=
        le_trans (Nat.le_of_eq (List.length_zip _ _)) (min_le_left _ _)
    _ = jobs.length := List.length_map _ _

/-- Summing `copied` and `scaled` over a list of Results in which each has
`copied + scaled = 1` gives the length of the list. -/
theorem results_sum_eq_length (l : List Result)
    (h : ∀ r ∈ l, r.copied + r.scaled = 1) :
    (l.map fun r => r.copied).sum + (l.map fun r => r.scaled).sum = l.length := by
  induction l with
  | nil => rfl
  | cons a t ih =>
    have ha := h a (List.mem_cons_self a t)
    have ht := ih fun r hr => h r (List.mem_cons_of_mem _ hr)
    simp only [List.map_cons, List.sum_cons, List.length_cons]
    omega

/-- The drained counts never exceed the number of jobs. -/
theorem availableResults_sums_le (lib : ImageLib) (size : Nat) (smooth : Bool)
    (jobs : List (String × String)) (delivered : List Bool) :
    ((availableResults lib size smooth jobs delivered).map fun r => r.copied).sum
      + ((availableResults lib size smooth jobs delivered).map fun r => r.scaled).sum
      ≤ jobs.length := by
  rw [results_sum_eq_length _
    (fun r hr => availableResults_mem_sum lib size smooth jobs delivered r hr)]
  exact availableResults_length_le lib size smooth jobs delivered

/-- C1: for every batch the coordinator completes (every configuration,
listing, interrupt pattern and delivery schedule on which `scale` returns a
Summary), the Summary satisfies `todo = copied + scaled + skipped` with
`skipped = todo - copied - scaled ≥ 0`: drained Results never outnumber the
enqueued jobs and each contributes exactly one to `copied + scaled`. -/
theorem C1_summary_invariant (lib : ImageLib) (listing : List String)
    (interrupted : Bool) (delivered : List Bool) (size : Nat) (smooth : Bool)
    (source target : String) (concurrency : Nat) (s : Summary)
    (h : scale lib listing interrupted delivered size smooth source target
          concurrency = some s) :
    (s.todo : ℤ) = (s.copied : ℤ) + (s.scaled : ℤ)
        + ((s.todo : ℤ) - (s.copied : ℤ) - (s.scaled : ℤ)) ∧
    0 ≤ (s.todo : ℤ) - (s.copied : ℤ) - (s.scaled : ℤ) := by
  refine ⟨by ring, ?_⟩
  unfold scale at h
  cases hA : add_jobs source target listing with
  | none => rw [hA] at h; cases h
  | some td =>
    rw [hA] at h
    dsimp only at h
    have hlen : td.2.length = td.1 := by
      unfold add_jobs at hA
      split at hA
      · cases hA
      · cases hA; simp
    have hcs := availableResults_sums_le lib size smooth td.2
      (if interrupted then delivered else List.replicate td.2.length true)
    cases h
    dsimp only
    omega

/-- Witness for C1 at a concrete completed batch. -/
theorem C1_witness :
    scale (constLib 100 100) ["a.xpm"] false [] 400 false "/s" "/t" 2
        = some ⟨1, 1, 0, false⟩ ∧
    (((⟨1, 1, 0, false⟩ : Summary).todo : ℤ)
        = ((⟨1, 1, 0, false⟩ : Summary).copied : ℤ)
          + ((⟨1, 1, 0, false⟩ : Summary).scaled : ℤ)
          + (((⟨1, 1, 0, false⟩ : Summary).todo : ℤ)
             - ((⟨1, 1, 0, false⟩ : Summary).copied : ℤ)
             - ((⟨1, 1, 0, false⟩ : Summary).scaled : ℤ)) ∧
     0 ≤ ((⟨1, 1, 0, false⟩ : Summary).todo : ℤ)
          - ((⟨1, 1, 0, false⟩ : Summary).copied : ℤ)
          - ((⟨1, 1, 0, false⟩ : Summary).scaled : ℤ)) :=
  ⟨rfl, C1_summary_invariant (constLib 100 100) ["a.xpm"] false [] 400 false
    "/s" "/t" 2 ⟨1, 1, 0, false⟩ rfl⟩

/-- C2: every job a worker retrieves from the queue is acknowledged exactly
once by that worker — one `task_done` per retrieved job, whatever each
job's outcome, so acknowledgments are never omitted nor duplicated. -/
theorem C2_each_job_acknowledged_once (lib : ImageLib) (size : Nat)
    (smooth : Bool) (jobs : List (String × String)) :
    ((workerRun lib size smooth jobs).map fun st => st.task_done).sum
        = jobs.length ∧
    ∀ job : String × String, (worker_one lib size smooth job).task_done = 1 := by
  constructor
  · induction jobs with
    | nil => rfl
    | cons a t ih =>
      simp only [workerRun, List.map_cons, List.sum_cons, List.length_cons] at ih ⊢
      rw [worker_one_task_done, ih]
      omega
  · exact fun job => worker_one_task_done lib size smooth job

/-- C3: when `scale_one` raises an Image error on a job, the worker catches
it locally: it reports the error line, puts no Result on the result queue,
still acknowledges the job exactly once, and its loop continues with the
remaining jobs. -/
theorem C3_transform_error_isolated (lib : ImageLib) (size : Nat)
    (smooth : Bool) (job : String × String) (err : String)
    (h : scale_one lib size smooth job.1 job.2 = .error err) :
    (worker_one lib size smooth job).result = none ∧
    (worker_one lib size smooth job).reports = [(err, true)] ∧
    (worker_one lib size smooth job).task_done = 1 ∧
    ∀ rest : List (String × String),
      workerRun lib size smooth (job :: rest) =
        worker_one lib size smooth job :: workerRun lib size smooth rest := by
  refine ⟨?_, ?_, ?_, fun rest => rfl⟩ <;> (unfold worker_one; rw [h])

/-- Witness for C3 at a concrete failing library and job. -/
theorem C3_witness :
    scale_one errLib 400 false "/s/a.xpm" "/t/a.xpm"
        = .error "Image.Error: cannot read image" ∧
    ((worker_one errLib 400 false ("/s/a.xpm", "/t/a.xpm")).result = none ∧
     (worker_one errLib 400 false ("/s/a.xpm", "/t/a.xpm")).reports
        = [("Image.Error: cannot read image", true)] ∧
     (worker_one errLib 400 false ("/s/a.xpm", "/t/a.xpm")).task_done = 1 ∧
     ∀ rest : List (String × String),
       workerRun errLib 400 false (("/s/a.xpm", "/t/a.xpm") :: rest) =
         worker_one errLib 400 false ("/s/a.xpm", "/t/a.xpm")
           :: workerRun errLib 400 false rest) :=
  ⟨rfl, C3_transform_error_isolated errLib 400 false ("/s/a.xpm", "/t/a.xpm")
    "Image.Error: cannot read image" rfl⟩

/-- C4: an image with both dimensions within the bound takes the COPY
branch for either smooth setting: the loaded image itself is saved to the
target path and the Result is `Result(1, 0, targetImage)`. -/
theorem C4_small_image_copied (lib : ImageLib) (size : Nat) (smooth : Bool)
    (src tgt : String) (img : Image)
    (hload : lib.from_file src = .ok img)
    (hw : img.width ≤ size) (hh : img.height ≤ size)
    (hsave : lib.save img tgt = .ok ()) :
    scale_one lib size smooth src tgt = .ok ⟨.copy, img, ⟨1, 0, tgt⟩⟩ := by
  unfold scale_one
  rw [hload]
  dsimp only
  rw [if_pos ⟨hw, hh⟩, hsave]

/-- Witness for C4: a 300×200 image under bound 400, smooth set. -/
theorem C4_witness :
    (constLib 300 200).from_file "/s/a.xpm" = .ok ⟨300, 200⟩ ∧
    (300 ≤ 400 ∧ 200 ≤ 400) ∧
    (constLib 300 200).save ⟨300, 200⟩ "/t/a.xpm" = .ok () ∧
    scale_one (constLib 300 200) 400 true "/s/a.xpm" "/t/a.xpm"
        = .ok ⟨.copy, ⟨300, 200⟩, ⟨1, 0, "/t/a.xpm"⟩⟩ :=
  ⟨rfl, ⟨by decide, by decide⟩, rfl,
    C4_small_image_copied (constLib 300 200) 400 true "/s/a.xpm" "/t/a.xpm"
      ⟨300, 200⟩ rfl (by decide) (by decide) rfl⟩

/-- C5: for an image exceeding the bound in some dimension under smooth
scaling, the factor the code computes is `min(size/width, size/height)`
(exact rational division); it satisfies `factor * width ≤ size` and
`factor * height ≤ size` and is the largest rational doing so. -/
theorem C5_smooth_factor_minimal (lib : ImageLib) (size : Nat)
    (src tgt : String) (img : Image)
    (hload : lib.from_file src = .ok img)
    (hw : 0 < img.width) (hh : 0 < img.height)
    (hbig : ¬(img.width ≤ size ∧ img.height ≤ size))
    (hsave : ∀ i p, lib.save i p = .ok ()) :
    scale_one lib size true src tgt =
      .ok ⟨.smoothScale (min ((size : ℚ) / img.width) ((size : ℚ) / img.height)),
           lib.scale img (min ((size : ℚ) / img.width) ((size : ℚ) / img.height)),
           ⟨0, 1, tgt⟩⟩ ∧
    min ((size : ℚ) / img.width) ((size : ℚ) / img.height) * img.width ≤ size ∧
    min ((size : ℚ) / img.width) ((size : ℚ) / img.height) * img.height ≤ size ∧
    ∀ g : ℚ, g * img.width ≤ size → g * img.height ≤ size →
      g ≤ min ((size : ℚ) / img.width) ((size : ℚ) / img.height) := by
  have hw' : (0 : ℚ) < img.width := by exact_mod_cast hw
  have hh' : (0 : ℚ) < img.height := by exact_mod_cast hh
  refine ⟨?_, ?_, ?_, ?_⟩
  · unfold scale_one
    rw [hload]
    dsimp only
    rw [if_neg hbig, if_pos rfl, hsave]
  · exact (le_div_iff₀ hw').1 (min_le_left _ _)
  · exact (le_div_iff₀ hh').1 (min_le_right _ _)
  · exact fun g h1 h2 => le_min ((le_div_iff₀ hw').2 h1) ((le_div_iff₀ hh').2 h2)

/-- Witness for C5: bound 400 on an 800×1600 image gives factor 1/4. -/
theorem C5_witness :
    (constLib 800 1600).from_file "/s/a.xpm" = .ok ⟨800, 1600⟩ ∧
    0 < 800 ∧ 0 < 1600 ∧ ¬(800 ≤ 400 ∧ 1600 ≤ 400) ∧
    min ((400 : ℚ) / 800) ((400 : ℚ) / 1600) = 1 / 4 ∧
    (scale_one (constLib 800 1600) 400 true "/s/a.xpm" "/t/a.xpm" =
       .ok ⟨.smoothScale (min ((400 : ℚ) / (800 : Nat)) ((400 : ℚ) / (1600 : Nat))),
            (constLib 800 1600).scale ⟨800, 1600⟩
              (min ((400 : ℚ) / (800 : Nat)) ((400 : ℚ) / (1600 : Nat))),
            ⟨0, 1, "/t/a.xpm"⟩⟩ ∧
     min ((400 : ℚ) / (800 : Nat)) ((400 : ℚ) / (1600 : Nat)) * (800 : Nat) ≤ 400 ∧
     min ((400 : ℚ) / (800 : Nat)) ((400 : ℚ) / (1600 : Nat)) * (1600 : Nat) ≤ 400 ∧
     ∀ g : ℚ, g * (800 : Nat) ≤ 400 → g * (1600 : Nat) ≤ 400 →
       g ≤ min ((400 : ℚ) / (800 : Nat)) ((400 : ℚ) / (1600 : Nat))) :=
  ⟨rfl, by decide, by decide, by decide, by norm_num,
    C5_smooth_factor_minimal (constLib 800 1600) 400 "/s/a.xpm" "/t/a.xpm"
      ⟨800, 1600⟩ rfl (by decide) (by decide) (by decide) (fun i p => rfl)⟩

/-- C6: for an image exceeding the bound in some dimension under subsample
scaling, the stride the code computes is `ceil(max(width/size, height/size))`
(exact rational division); it is at least 1, shrinks both dimensions within
the bound, and is the smallest positive integer stride doing so. -/
theorem C6_subsample_stride_minimal (lib : ImageLib) (size : Nat)
    (src tgt : String) (img : Image)
    (hload : lib.from_file src = .ok img)
    (hw : 0 < img.width) (hh : 0 < img.height) (hsize : 0 < size)
    (hbig : ¬(img.width ≤ size ∧ img.height ≤ size))
    (hsave : ∀ i p, lib.save i p = .ok ()) :
    scale_one lib size false src tgt =
      .ok ⟨.subsample (Int.ceil (max ((img.width : ℚ) / size)
                                     ((img.height : ℚ) / size))),
           lib.subsample img (Int.ceil (max ((img.width : ℚ) / size)
                                            ((img.height : ℚ) / size))),
           ⟨0, 1, tgt⟩⟩ ∧
    1 ≤ Int.ceil (max ((img.width : ℚ) / size) ((img.height : ℚ) / size)) ∧
    (img.width : ℚ)
        / (Int.ceil (max ((img.width : ℚ) / size) ((img.height : ℚ) / size)) : ℤ)
        ≤ size ∧
    (img.height : ℚ)
        / (Int.ceil (max ((img.width : ℚ) / size) ((img.height : ℚ) / size)) : ℤ)
        ≤ size ∧
    ∀ s2 : ℤ, 1 ≤ s2 → (img.width : ℚ) / s2 ≤ size →
      (img.height : ℚ) / s2 ≤ size →
      Int.ceil (max ((img.width : ℚ) / size) ((img.height : ℚ) / size)) ≤ s2 := by
  have hw' : (0 : ℚ) < img.width := by exact_mod_cast hw
  have hh' : (0 : ℚ) < img.height := by exact_mod_cast hh
  have hb' : (0 : ℚ) < size := by exact_mod_cast hsize
  have hone : 1 ≤ Int.ceil (max ((img.width : ℚ) / size) ((img.height : ℚ) / size)) := by
    have hpos : (0 : ℚ) < max ((img.width : ℚ) / size) ((img.height : ℚ) / size) :=
      lt_max_iff.mpr (Or.inl (div_pos hw' hb'))
    have := Int.ceil_pos.mpr hpos
    omega
  have hst' : (0 : ℚ) <
      (Int.ceil (max ((img.width : ℚ) / size) ((img.height : ℚ) / size)) : ℤ) := by
    exact_mod_cast lt_of_lt_of_le Int.zero_lt_one hone
  refine ⟨?_, hone, ?_, ?_, ?_⟩
  · unfold scale_one
    rw [hload]
    dsimp only
    rw [if_neg hbig, if_neg Bool.false_ne_true, hsave]
  · rw [div_le_iff₀ hst']
    have h1 : (img.width : ℚ) / size ≤
        (Int.ceil (max ((img.width : ℚ) / size) ((img.height : ℚ) / size)) : ℤ) :=
      le_trans (le_max_left _ _) (Int.le_ceil _)
    rw [div_le_iff₀ hb'] at h1
    linarith
  · rw [div_le_iff₀ hst']
    have h1 : (img.height : ℚ) / size ≤
        (Int.ceil (max ((img.width : ℚ) / size) ((img.height : ℚ) / size)) : ℤ) :=
      le_trans (le_max_right _ _) (Int.le_ceil _)
    rw [div_le_iff₀ hb'] at h1
    linarith
  · intro s2 hs2 hws hhs
    have hs2' : (0 : ℚ) < (s2 : ℤ) := by exact_mod_cast lt_of_lt_of_le Int.zero_lt_one hs2
    rw [div_le_iff₀ hs2'] at hws hhs
    rw [Int.ceil_le]
    refine max_le ?_ ?_
    · rw [div_le_iff₀ hb']
      linarith
    · rw [div_le_iff₀ hb']
      linarith

/-- Witness for C6: bound 400 on an 800×400 image gives stride 2. -/
theorem C6_witness :
    (constLib 800 400).from_file "/s/a.xpm" = .ok ⟨800, 400⟩ ∧
    0 < 800 ∧ 0 < 400 ∧ 0 < 400 ∧ ¬(800 ≤ 400 ∧ 400 ≤ 400) ∧
    Int.ceil (max ((800 : ℚ) / 400) ((400 : ℚ) / 400)) = 2 ∧
    (scale_one (constLib 800 400) 400 false "/s/a.xpm" "/t/a.xpm" =
       .ok ⟨.subsample (Int.ceil (max (((800 : Nat) : ℚ) / (400 : Nat))
                                      (((400 : Nat) : ℚ) / (400 : Nat)))),
            (constLib 800 400).subsample ⟨800, 400⟩
              (Int.ceil (max (((800 : Nat) : ℚ) / (400 : Nat))
                             (((400 : Nat) : ℚ) / (400 : Nat)))),
            ⟨0, 1, "/t/a.xpm"⟩⟩ ∧
     1 ≤ Int.ceil (max (((800 : Nat) : ℚ) / (400 : Nat))
                       (((400 : Nat) : ℚ) / (400 : Nat))) ∧
     ((800 : Nat) : ℚ)
         / (Int.ceil (max (((800 : Nat) : ℚ) / (400 : Nat))
                          (((400 : Nat) : ℚ) / (400 : Nat))) : ℤ) ≤ (400 : Nat) ∧
     ((400 : Nat) : ℚ)
         / (Int.ceil (max (((800 : Nat) : ℚ) / (400 : Nat))
                          (((400 : Nat) : ℚ) / (400 : Nat))) : ℤ) ≤ (400 : Nat) ∧
     ∀ s2 : ℤ, 1 ≤ s2 → ((800 : Nat) : ℚ) / s2 ≤ (400 : Nat) →
       ((400 : Nat) : ℚ) / s2 ≤ (400 : Nat) →
       Int.ceil (max (((800 : Nat) : ℚ) / (400 : Nat))
                     (((400 : Nat) : ℚ) / (400 : Nat))) ≤ s2) :=
  ⟨rfl, by decide, by decide, by decide, by decide, by norm_num,
    C6_subsample_stride_minimal (constLib 800 400) 400 "/s/a.xpm" "/t/a.xpm"
      ⟨800, 400⟩ rfl (by decide) (by decide) (by decide) (by decide)
      (fun i p => rfl)⟩

/-- C7: when the interrupt arrives during `join()`, the coordinator
abandons the wait, marks the Summary canceled, and still drains and counts
exactly the Results that had reached the result queue (the `delivered`
ones); a canceled batch still returns a Summary. -/
theorem C7_cancellation_still_summarizes (lib : ImageLib)
    (listing : List String) (delivered : List Bool) (size : Nat)
    (smooth : Bool) (source target : String) (concurrency : Nat)
    (h : listing ≠ []) :
    ∃ s : Summary,
      scale lib listing true delivered size smooth source target
          concurrency = some s ∧
      s.canceled = true ∧
      s.todo = listing.length ∧
      s.copied = ((availableResults lib size smooth
          (listing.map fun name => (pathJoin source name, pathJoin target name))
          delivered).map fun r => r.copied).sum ∧
      s.scaled = ((availableResults lib size smooth
          (listing.map fun name => (pathJoin source name, pathJoin target name))
          delivered).map fun r => r.scaled).sum := by
  have hA : add_jobs source target listing =
      some (listing.length,
        listing.map fun name => (pathJoin source name, pathJoin target name)) := by
    unfold add_jobs
    rw [if_neg (by simpa [List.isEmpty_iff] using h)]
  refine ⟨⟨listing.length,
      ((availableResults lib size smooth
          (listing.map fun name => (pathJoin source name, pathJoin target name))
          delivered).map fun r => r.copied).sum,
      ((availableResults lib size smooth
          (listing.map fun name => (pathJoin source name, pathJoin target name))
          delivered).map fun r => r.scaled).sum, true⟩, ?_, rfl, rfl, rfl, rfl⟩
  unfold scale
  rw [hA]
  rfl

/-- Witness for C7: a two-image batch interrupted with only the first
result delivered. -/
theorem C7_witness :
    (["a.xpm", "b.xpm"] : List String) ≠ [] ∧
    ∃ s : Summary,
      scale (constLib 100 100) ["a.xpm", "b.xpm"] true [true, false] 400
          false "/s" "/t" 4 = some s ∧
      s.canceled = true ∧
      s.todo = (["a.xpm", "b.xpm"] : List String).length ∧
      s.copied = ((availableResults (constLib 100 100) 400 false
          ((["a.xpm", "b.xpm"] : List String).map fun name =>
            (pathJoin "/s" name, pathJoin "/t" name))
          [true, false]).map fun r => r.copied).sum ∧
      s.scaled = ((availableResults (constLib 100 100) 400 false
          ((["a.xpm", "b.xpm"] : List String).map fun name =>
            (pathJoin "/s" name, pathJoin "/t" name))
          [true, false]).map fun r => r.scaled).sum :=
  ⟨List.cons_ne_nil _ _,
    C7_cancellation_still_summarizes (constLib 100 100) ["a.xpm", "b.xpm"]
      [true, false] 400 false "/s" "/t" 4 (List.cons_ne_nil _ _)⟩

/-- C8 as frozen is false on an empty source directory: `add_jobs`
returns no count at all there (UnboundLocalError), rather than a count
of its zero entries. -/
theorem C8_counterexample : add_jobs "/source" "/target" [] = none := rfl

/-- C8 (amended): for every source directory with at least one entry,
`add_jobs` enqueues one job `(join(source, name), join(target, name))` per
entry, in listing order, and returns the number of entries as `todo`. -/
theorem C8_jobs_enqueued_with_count (source target : String)
    (listing : List String) (h : listing ≠ []) :
    add_jobs source target listing =
      some (listing.length,
        listing.map fun name => (pathJoin source name, pathJoin target name)) := by
  unfold add_jobs
  rw [if_neg (by simpa [List.isEmpty_iff] using h)]

/-- Witness for C8 on a two-entry listing. -/
theorem C8_witness :
    (["a.xpm", "b.xpm"] : List String) ≠ [] ∧
    add_jobs "/s" "/t" ["a.xpm", "b.xpm"] =
      some (2, [("/s/a.xpm", "/t/a.xpm"), ("/s/b.xpm", "/t/b.xpm")]) :=
  ⟨List.cons_ne_nil _ _,
    (C8_jobs_enqueued_with_count "/s" "/t" ["a.xpm", "b.xpm"]
      (List.cons_ne_nil _ _)).trans rfl⟩

/-- C9 as frozen is false: the coordinator `scale` validates nothing —
called directly with source = target it runs the batch and returns a
Summary instead of rejecting the configuration. -/
theorem C9_counterexample :
    scale (constLib 100 100) ["a.xpm"] false [] 400 false "/same" "/same" 1 =
      some ⟨1, 1, 0, false⟩ := rfl

/-- C9 (amended): input validation lives in the CLI layer, not the
coordinator, and covers only the directory check: `handle_commandline`
rejects exactly the configurations with abspath(source) = abspath(target)
and accepts every concurrency value (workerCount > 0 is checked nowhere),
while `scale` starts the batch without validating either condition. -/
theorem C9_validation_in_cli_only (abspath : String → String) (args : Args) :
    (abspath args.source = abspath args.target →
      handle_commandline abspath args =
        .error "source and target must be different") ∧
    (abspath args.source ≠ abspath args.target →
      handle_commandline abspath args =
        .ok (args.size, args.smooth, abspath args.source,
             abspath args.target, args.concurrency)) ∧
    ∀ (lib : ImageLib) (listing : List String) (interrupted : Bool)
      (delivered : List Bool) (size : Nat) (smooth : Bool) (dir : String)
      (concurrency : Nat), listing ≠ [] →
      (scale lib listing interrupted delivered size smooth dir dir
        concurrency).isSome = true := by
  refine ⟨fun he => ?_, fun hne => ?_, ?_⟩
  · unfold handle_commandline
    rw [if_pos he]
  · unfold handle_commandline
    rw [if_neg hne]
  · intro lib listing interrupted delivered size smooth dir concurrency hne
    unfold scale add_jobs
    rw [if_neg (by simpa [List.isEmpty_iff] using hne)]
    rfl

/-- Witness for C9: a concurrency of 0 passes the CLI check unrejected,
and the coordinator proceeds on equal directories. -/
theorem C9_witness :
    ("/a" : String) ≠ "/b" ∧
    (["a.xpm"] : List String) ≠ [] ∧
    handle_commandline (fun p => p) ⟨0, 400, false, "/a", "/b"⟩ =
      .ok (400, false, "/a", "/b", 0) ∧
    (scale (constLib 100 100) ["a.xpm"] false [] 400 false "/d" "/d"
      1).isSome = true := by
  refine ⟨by decide, List.cons_ne_nil _ _, ?_, ?_⟩
  · exact (C9_validation_in_cli_only (fun p => p)
      ⟨0, 400, false, "/a", "/b"⟩).2.1 (by decide)
  · exact (C9_validation_in_cli_only (fun p => p)
      ⟨0, 400, false, "/a", "/b"⟩).2.2 (constLib 100 100) ["a.xpm"] false []
      400 false "/d" 1 (List.cons_ne_nil _ _)

/-- C10: on an empty source directory `add_jobs` binds `todo` on no
iteration, so it raises UnboundLocalError instead of returning 0, and the
batch fails before `join()` with no Summary produced. -/
theorem C10_empty_listing_fails (source target : String) (lib : ImageLib)
    (interrupted : Bool) (delivered : List Bool) (size : Nat) (smooth : Bool)
    (concurrency : Nat) :
    add_jobs source target [] = none ∧
    scale lib [] interrupted delivered size smooth source target
        concurrency = none :=
  ⟨rfl, rfl⟩

end ImageScale
